import Mathlib

/-!
Shallow embedding of the Smart_pdf_translator repository
(`streamlit_Book_translator.py` and `multilang_pdf_converter.py`).

Python string operations are modelled over `List Char` / `String`,
machine integers and PDF coordinates over `Int` (see the scale note at
`ptScale`), HTTP traffic over an explicit response oracle, and the
filesystem over an explicit list of existing paths.
-/

set_option maxRecDepth 100000

namespace SmartPdf

/-- Python whitespace characters relevant to `str.strip` / `str.split`
for the strings this program handles. -/
def pyWs (c : Char) : Bool :=
  c = ' ' || c = '\n' || c = '\t' || c = '\r'

/-- First occurrence of `sep` in a character list: returns the characters
before the match and the characters after it.  Models the search that
underlies Python `in`, `str.split` and `str.split(sep, 1)`. -/
def findSub (sep : List Char) : List Char → Option (List Char × List Char)
  | [] => if sep.isEmpty then some ([], []) else none
  | c :: rest =>
    if sep.isPrefixOf (c :: rest) then some ([], (c :: rest).drop sep.length)
    else
      match findSub sep rest with
      | some (b, a) => some (c :: b, a)
      | none => none

/-- Python `sub in s` for strings. -/
def pyContains (s sub : String) : Bool :=
  (findSub sub.data s.data).isSome

/-- Fueled worker for Python `str.split(sep)` (unbounded split on a
non-empty separator).  Fuel `s.length` always suffices because every
found separator consumes at least one character. -/
def pySplitAux (sep : List Char) : Nat → List Char → List (List Char)
  | 0, s => [s]
  | fuel + 1, s =>
    match findSub sep s with
    | none => [s]
    | some (b, a) => b :: pySplitAux sep fuel a

/-- Python `s.split(sep)` for a non-empty string separator. -/
def pySplit (s sep : String) : List String :=
  (pySplitAux sep.data s.data.length s.data).map (fun l => ⟨l⟩)

/-- Python `s.split(sep, 1)` (at most one split). -/
def pySplit1 (s sep : String) : List String :=
  match findSub sep.data s.data with
  | none => [s]
  | some (b, a) => [⟨b⟩, ⟨a⟩]

/-- Python `s.strip()`. -/
def pyStrip (s : String) : String :=
  ⟨((s.data.dropWhile pyWs).reverse.dropWhile pyWs).reverse⟩

/-- Worker for Python `s.split()` (split on whitespace runs, dropping
empty fields); `acc` is the current word, reversed. -/
def splitWsAux : List Char → List Char → List (List Char)
  | [], acc => if acc.isEmpty then [] else [acc.reverse]
  | c :: rest, acc =>
    if pyWs c then
      if acc.isEmpty then splitWsAux rest []
      else acc.reverse :: splitWsAux rest []
    else splitWsAux rest (c :: acc)

/-- Python `s.split()` (whitespace split). -/
def pySplitWsStr (s : String) : List String :=
  (splitWsAux s.data []).map (fun l => ⟨l⟩)

/-- Worker for Python `str.title`; the flag records whether the previous
character was alphabetic. -/
def titleAux : Bool → List Char → List Char
  | _, [] => []
  | prevAlpha, c :: rest =>
    if c.isAlpha then
      (if prevAlpha then c.toLower else c.toUpper) :: titleAux true rest
    else c :: titleAux false rest

/-- Python `s.title()`. -/
def pyTitle (s : String) : String :=
  ⟨titleAux false s.data⟩

/-- Python `s.lower()` (ASCII, which covers every string this program
lowercases). -/
def pyLower (s : String) : String :=
  ⟨s.data.map Char.toLower⟩

/-- Python `s.startswith(p)`. -/
def strStartsWith (s p : String) : Bool :=
  p.data.isPrefixOf s.data

/-- Python `s.endswith(p)`. -/
def strEndsWith (s p : String) : Bool :=
  p.data.isSuffixOf s.data

/-- The detection-marker parse step of `translate_image`
(`streamlit_Book_translator.py` lines 300-311).  Mirrors the Python
statement order inside the `try` block: `detected_lang` is assigned
before the reassignment of `translation`, whose list indexing
(`split("]", 1)[1]`) is the only operation that can raise; the bare
`except: pass` keeps whatever was assigned up to that point.  Returns
`(translation, detected_lang)`. -/
def parseDetect (t : String) : String × Option String :=
  if pyContains t "[DETECTED:" then
    match (pySplit t "[DETECTED:").get? 1 with
    | none => (t, none)
    | some seg1 =>
      match (pySplit seg1 "]").get? 0 with
      | none => (t, none)
      | some seg2 =>
        let d := pyStrip seg2
        match (pySplit1 t "]").get? 1 with
        | none => (t, some d)
        | some rest => (pyStrip rest, some d)
  else (t, none)

/-! ## Remote translation call (`translate_image`, lines 230-322) -/

/-- One HTTP interaction as seen by `translate_image`.  `exc msg` is an
exception raised during the request or while decoding the response body
(both land in the same bare `except Exception` handler, carrying
`str(e)`); `status code content` is a response with the given status
code whose decoded message content (for statuses that reach the JSON
parse) is `content`. -/
inductive HttpResp where
  | exc (msg : String)
  | status (code : Nat) (content : String)
deriving DecidableEq

/-- The `(translation, detected_lang, error)` triple returned by
`translate_image`. -/
structure CallResult where
  translation : Option String
  detected : Option String
  error : Option String
deriving DecidableEq

/-- Observable trace of one `translate_image` call: how many loop
iterations (attempts) ran, the sleep performed before each attempt in
order (0 for the first attempt, which does not sleep), and the returned
triple. -/
structure RunStats where
  attempts : Nat
  waits : List Nat
  result : CallResult
deriving DecidableEq

/-- Error string for HTTP 404 (line 290). -/
def modelNotFoundMsg (modelId : String) : String :=
  "Model '" ++ modelId ++ "' not found. Please select a different model."

/-- Error string for exhausted 429 retries (line 294). -/
def rateLimitMsg : String :=
  "Rate limit exceeded. Please increase wait time or add credits."

/-- The retry loop of `translate_image` (lines 281-322).  `respond` is
the oracle giving the HTTP outcome of each attempt (indexed from 0),
`remaining` the number of loop iterations left, `attempt` the Python
loop variable.  Mirrors: sleep `10 * (attempt + 1)` before every attempt
but the first; 404 is terminal; 429 retries while attempts remain;
`raise_for_status` turns any other status `≥ 400` into a retryable
`HTTPError` reported as `"HTTP Error <code>"`; other exceptions retry
and report `str(e)`; a parseable response goes through the
detection-marker parse and returns successfully. -/
def attemptLoop (respond : Nat → HttpResp) (modelId : String) :
    Nat → Nat → RunStats
  | 0, _ => ⟨0, [], ⟨none, none, some "All retry attempts failed"⟩⟩
  | remaining + 1, attempt =>
    let w := if attempt > 0 then 10 * (attempt + 1) else 0
    let cont : RunStats :=
      let r := attemptLoop respond modelId remaining (attempt + 1)
      ⟨r.attempts + 1, w :: r.waits, r.result⟩
    let stop : CallResult → RunStats := fun res => ⟨1, [w], res⟩
    match respond attempt with
    | .exc msg =>
      if remaining > 0 then cont else stop ⟨none, none, some msg⟩
    | .status code content =>
      if code = 404 then
        stop ⟨none, none, some (modelNotFoundMsg modelId)⟩
      else if code = 429 then
        if remaining > 0 then cont
        else stop ⟨none, none, some rateLimitMsg⟩
      else if 400 ≤ code then
        if remaining > 0 then cont
        else stop ⟨none, none, some ("HTTP Error " ++ toString code)⟩
      else
        let p := parseDetect content
        stop ⟨some p.1, p.2, none⟩

/-- `translate_image(..., retry_count)` under a given response oracle. -/
def translate_image (respond : Nat → HttpResp) (modelId : String)
    (retry_count : Nat) : RunStats :=
  attemptLoop respond modelId retry_count 0

example :
    translate_image (fun _ => .status 404 "") "m" 3 =
      ⟨1, [0], ⟨none, none, some (modelNotFoundMsg "m")⟩⟩ := by decide
example :
    translate_image (fun _ => .status 429 "") "m" 3 =
      ⟨3, [0, 20, 30], ⟨none, none, some rateLimitMsg⟩⟩ := by decide
example :
    translate_image (fun _ => .status 200 "hi") "m" 3 =
      ⟨1, [0], ⟨some "hi", none, none⟩⟩ := by decide
example :
    translate_image (fun i => if i = 0 then .exc "boom" else .status 200 "hi") "m" 3 =
      ⟨2, [0, 20], ⟨some "hi", none, none⟩⟩ := by decide
example :
    translate_image (fun _ => .status 500 "") "m" 2 =
      ⟨2, [0, 20], ⟨none, none, some "HTTP Error 500"⟩⟩ := by decide

/-! ## Translation pipeline (module level, lines 212-228 and 413-477) -/

/-- One rasterized page as produced by `pdf_to_images`: the 1-based page
number and its base64-encoded PNG data (abstracted by the `render`
oracle below). -/
structure PageImage where
  pageNum : Nat
  data : String
deriving DecidableEq

/-- `pdf_to_images(pdf_path, start_page, end_page)` (lines 212-228):
iterates `page_num` over Python `range(start_page - 1, end_page)` and
records `page_num + 1` with the page's rasterized data.  `render` is the
rasterization oracle for the opened document, `totalPages` its page
count; `none` models the `IndexError` raised by `doc[page_num]` when the
range reaches past the last page (Python's negative indexing for
`start_page < 1` is outside the modelled domain and also mapped to
`none`). -/
def pdf_to_images (totalPages : Nat) (render : Nat → String)
    (start_page end_page : Nat) : Option (List PageImage) :=
  if end_page ≤ totalPages ∧ 1 ≤ start_page then
    some ((List.range' (start_page - 1) (end_page - (start_page - 1))).map
      (fun p => ⟨p + 1, render (p + 1)⟩))
  else none

/-- Python truthiness of the optional strings tested by the pipeline
loop (`if translation:`, `if detected_lang:`): `None` and `""` are
falsy. -/
def pyTruthyS : Option String → Bool
  | none => false
  | some s => !s.isEmpty

/-- Python `str(x)` for the optional strings interpolated into
f-strings by the loop: `str(None) = "None"`. -/
def pyStrOf : Option String → String
  | none => "None"
  | some s => s

/-- The three accumulator lists of the module-level translation loop
(lines 428-461): `all_translations`, `failed_pages`,
`detected_languages`. -/
structure LoopOut where
  translations : List String
  failed : List Nat
  detectedLangs : List String
deriving DecidableEq

/-- The transcript entry appended for one page, given the triple
`(translation, detected_lang, error)` returned by `translate_image`
(lines 454-459). -/
def entryStr (n : Nat) (r : Option String × Option String × Option String) :
    String :=
  if pyTruthyS r.1 then
    "\n--- Page " ++ toString n ++ " ---\n" ++ pyStrOf r.1
  else
    "\n--- Page " ++ toString n ++ " ---\n[Translation failed: " ++
      pyStrOf r.2.2 ++ "]"

/-- The module-level translation loop (lines 432-461): one entry is
appended to `all_translations` per image whether the page succeeded or
failed; failures also record the page number, successes with a truthy
`detected_lang` record it.  `tr` is the per-page outcome of
`translate_image`, keyed by page number. -/
def translationLoop
    (tr : Nat → Option String × Option String × Option String) :
    List PageImage → LoopOut
  | [] => ⟨[], [], []⟩
  | img :: rest =>
    let r := tr img.pageNum
    let tail := translationLoop tr rest
    if pyTruthyS r.1 then
      ⟨("\n--- Page " ++ toString img.pageNum ++ " ---\n" ++ pyStrOf r.1) ::
          tail.translations,
        tail.failed,
        (if pyTruthyS r.2.1 then [pyStrOf r.2.1] else []) ++ tail.detectedLangs⟩
    else
      ⟨("\n--- Page " ++ toString img.pageNum ++
            " ---\n[Translation failed: " ++ pyStrOf r.2.2 ++ "]") ::
          tail.translations,
        img.pageNum :: tail.failed,
        tail.detectedLangs⟩

/-- Python `max(iterable, key=key)` for strings: the first element of
the iteration attaining the maximal key. -/
def pyMaxBy (key : String → Nat) : List String → Option String
  | [] => none
  | x :: rest =>
    some (rest.foldl (fun best y => if key y > key best then y else best) x)

/-- The detected-language aggregation (lines 471-477):
`max(set(detected_languages), key=detected_languages.count)` guarded by
`if detected_languages:`.  Python's `set` iteration order is arbitrary,
so it is an explicit parameter `setOrder`, constrained by
`validSetEnum` below. -/
def detectedSummary (setOrder : List String) (langs : List String) :
    Option String :=
  if langs.isEmpty then none else pyMaxBy (fun l => langs.count l) setOrder

/-- `order` is a possible iteration order of `set(xs)`: the distinct
elements of `xs`, each exactly once, in some order. -/
def validSetEnum (order xs : List String) : Prop :=
  order.Nodup ∧ order ⊆ xs ∧ xs ⊆ order

instance (order xs : List String) : Decidable (validSetEnum order xs) := by
  unfold validSetEnum; infer_instance

/-- The distinct elements of `xs` in first-seen order. -/
def firstSeen (xs : List String) : List String :=
  xs.foldl (fun acc x => if x ∈ acc then acc else acc ++ [x]) []

/-- The aggregation the spec asks for: plurality with first-seen
tie-break. -/
def firstSeenPlurality (xs : List String) : Option String :=
  pyMaxBy (fun l => xs.count l) (firstSeen xs)

example :
    pdf_to_images 5 (fun _ => "d") 2 4 =
      some [⟨2, "d"⟩, ⟨3, "d"⟩, ⟨4, "d"⟩] := by decide
example :
    translationLoop (fun n => if n = 2 then (none, none, some "err")
      else (some "ok", some "Hindi", none)) [⟨1, ""⟩, ⟨2, ""⟩] =
      ⟨["\n--- Page 1 ---\nok", "\n--- Page 2 ---\n[Translation failed: err]"],
        [2], ["Hindi"]⟩ := by decide
example : detectedSummary ["Tamil", "Hindi"] ["Hindi", "Tamil"] = some "Tamil" := by
  decide
example : firstSeenPlurality ["Hindi", "Tamil"] = some "Hindi" := by decide

/-! ## Script-aware PDF renderer (`multilang_pdf_converter.py`)

Geometry is modelled over `Int` in units of `10 ^ -13` PostScript
points, so that ReportLab's A4 float constants
`(595.2755905511812, 841.8897637795277)` become exact integers.  All
coordinate values reached by the layout loop are of the form
`A4height - 50 - 16k - 8m` for naturals `k, m`; these are exact in IEEE
double arithmetic and the comparisons against the margins (integers far
from any such value) agree with the float program, so the integer model
is faithful.  The glyph-width measure `c.stringWidth(·, font, 11)` is an
external font metric and enters as the oracle `stringWidth` on the same
scale. -/

/-- Scale factor: 1 PostScript point = `ptScale` model units. -/
def ptScale : Int := 10000000000000

/-- A4 width, 595.2755905511812 pt. -/
def A4width : Int := 5952755905511812

/-- A4 height, 841.8897637795277 pt. -/
def A4height : Int := 8418897637795277

/-- One `c.drawString(x, y, text)` call. -/
abbrev DrawOp := Int × Int × String

/-- The draw calls of one PDF page. -/
abbrev PdfPage := List DrawOp

/-- Layout state: completed pages, draw calls of the current page, and
the vertical cursor `y`. -/
structure LayoutSt where
  pages : List PdfPage
  cur : PdfPage
  y : Int
deriving DecidableEq

/-- `y = height - 50` (top of a fresh page). -/
def topY : Int := A4height - 50 * ptScale

/-- The `y < 50` bottom-margin threshold. -/
def bottomY : Int := 50 * ptScale

/-- The fixed x of every `drawString` call. -/
def leftX : Int := 50 * ptScale

/-- `c.showPage()`: emit the current page (blank pages included, as
ReportLab does) and start an empty one; the Python `y` variable is not
touched by `showPage` itself. -/
def showPage (st : LayoutSt) : LayoutSt :=
  ⟨st.pages ++ [st.cur], [], st.y⟩

/-- The word-wrap loop (lines 192-203): grow a candidate line; when the
measured candidate-with-word exceeds `maxWidth` and the candidate is
non-empty, draw the candidate, drop the cursor by 16, restart the
candidate with the word, and break the page if the cursor crossed the
bottom margin.  Returns the leftover candidate and the state. -/
def wrapLoop (measure : String → Int) (maxWidth : Int) :
    List String → String → LayoutSt → String × LayoutSt
  | [], current, st => (current, st)
  | w :: ws, current, st =>
    let test := if current ≠ "" then current ++ " " ++ w else w
    if measure test > maxWidth ∧ current ≠ "" then
      let st1 : LayoutSt :=
        ⟨st.pages, st.cur ++ [(leftX, st.y, current)], st.y - 16 * ptScale⟩
      let st2 := if st1.y < bottomY then ⟨st1.pages ++ [st1.cur], [], topY⟩ else st1
      wrapLoop measure maxWidth ws w st2
    else
      wrapLoop measure maxWidth ws test st

/-- The per-line loop of one section (lines 178-209): break the page
when the cursor is within the bottom margin; lay a non-blank line out
with `wrapLoop` and flush its leftover candidate; a blank line drops the
cursor by 8. -/
def lineLoop (measure : String → Int) : List String → LayoutSt → LayoutSt
  | [], st => st
  | line :: rest, st =>
    let st0 := if st.y < bottomY then ⟨st.pages ++ [st.cur], [], topY⟩ else st
    let st1 :=
      if pyStrip line ≠ "" then
        let maxWidth := A4width - 100 * ptScale
        let words := pySplitWsStr line
        let r := wrapLoop measure maxWidth words "" st0
        if r.1 ≠ "" then
          ⟨r.2.pages, r.2.cur ++ [(leftX, r.2.y, r.1)], r.2.y - 16 * ptScale⟩
        else r.2
      else ⟨st0.pages, st0.cur, st0.y - 8 * ptScale⟩
    lineLoop measure rest st1

/-- The per-section loop (lines 169-211): whitespace-only sections are
skipped; a rendered section resets the cursor to the top, lays out its
stripped lines, and unconditionally ends with `c.showPage()`. -/
def sectionLoop (measure : String → Int) : List String → LayoutSt → LayoutSt
  | [], st => st
  | sec :: rest, st =>
    if pyStrip sec = "" then sectionLoop measure rest st
    else
      let st1 : LayoutSt := ⟨st.pages, st.cur, topY⟩
      let lines := pySplit (pyStrip sec) "\n"
      let st2 := lineLoop measure lines st1
      sectionLoop measure rest (showPage st2)

/-- Lines 163-215: split on the `"--- Page"` sentinel when present, run
the layout, and model `Canvas.save` flushing a non-empty pending page. -/
def renderDoc (measure : String → Int) (text : String) : List PdfPage :=
  let sections :=
    if pyContains text "--- Page" then pySplit text "--- Page" else [text]
  let st := sectionLoop measure sections ⟨[], [], topY⟩
  if st.cur ≠ [] then st.pages ++ [st.cur] else st.pages

/-- Modelled from the external library: ReportLab's serializer always
emits the PDF header, so the byte output of a successful render is
never empty. -/
def serializePdf (pages : List PdfPage) : String :=
  "%PDF-1.4\n" ++ toString pages.length

/-- One entry of the `LANGUAGE_FONTS` registry (lines 28-74). -/
structure LangConfig where
  defaultFont : String
  fontName : String
  requiresSpecialFont : Bool
deriving DecidableEq

/-- The `LANGUAGE_FONTS` registry (lines 28-74). -/
def langRegistry : String → Option LangConfig := fun l =>
  if l = "hindi" then some ⟨"NotoSansDevanagari-Regular.ttf", "Devanagari", true⟩
  else if l = "english" then some ⟨"Helvetica", "Helvetica", false⟩
  else if l = "tamil" then some ⟨"NotoSansTamil-Regular.ttf", "Tamil", true⟩
  else if l = "bengali" then some ⟨"NotoSansBengali-Regular.ttf", "Bengali", true⟩
  else if l = "gujarati" then some ⟨"NotoSansGujarati-Regular.ttf", "Gujarati", true⟩
  else if l = "telugu" then some ⟨"NotoSansTelugu-Regular.ttf", "Telugu", true⟩
  else if l = "kannada" then some ⟨"NotoSansKannada-Regular.ttf", "Kannada", true⟩
  else if l = "malayalam" then some ⟨"NotoSansMalayalam-Regular.ttf", "Malayalam", true⟩
  else if l = "punjabi" then some ⟨"NotoSansGurmukhi-Regular.ttf", "Punjabi", true⟩
  else none

/-- `', '.join(LANGUAGE_FONTS.keys())` in dict insertion order. -/
def supportedNames : String :=
  "hindi, english, tamil, bengali, gujarati, telugu, kannada, malayalam, punjabi"

/-- POSIX model of `os.path.isabs`. -/
def isAbsPath (p : String) : Bool := strStartsWith p "/"

/-- POSIX model of `os.path.join` for the shapes this program uses. -/
def joinPath (a b : String) : String :=
  if isAbsPath b then b
  else if a = "" then b
  else if strEndsWith a "/" then a ++ b
  else a ++ "/" ++ b

/-- Environment of one `txt_to_pdf_multilang` call: the set of existing
filesystem paths (`os.path.exists p` ⟺ `p ∈ fs`, listed in `os.walk`
discovery order), the script directory, the registered font's width
metric at point size 11, the exception text raised by
`pdfmetrics.registerFont` if any, and whether `reportlab` imports. -/
structure RenderEnv where
  fs : List String
  scriptDir : String
  stringWidth : String → Int
  registerErr : Option String
  reportlabAvailable : Bool

/-- Model of the `os.walk` search inside a `fonts`-named directory
(lines 128-133): the first existing file under `root` whose base name is
`fname`. -/
def walkFind (fs : List String) (root fname : String) : Option String :=
  fs.find? (fun p => strStartsWith p (root ++ "/") && strEndsWith p ("/" ++ fname))

/-- The search over `FONT_SEARCH_PATHS` (lines 116-133): skip
non-existing directories, prefer a direct `search_path/fname` hit, and
recurse with `os.walk` when the directory name contains `"fonts"`. -/
def searchFontDirs (fs : List String) (fname : String) :
    List String → Option String
  | [] => none
  | sp :: rest =>
    if sp ∈ fs then
      if joinPath sp fname ∈ fs then some (joinPath sp fname)
      else if pyContains (pyLower sp) "fonts" then
        match walkFind fs sp fname with
        | some f => some f
        | none => searchFontDirs fs fname rest
      else searchFontDirs fs fname rest
    else searchFontDirs fs fname rest

/-- `FONT_SEARCH_PATHS` (lines 77-84). -/
def fontSearchPaths (scriptDir : String) : List String :=
  [scriptDir, joinPath scriptDir "fonts",
    joinPath (joinPath scriptDir "..") "fonts",
    "/usr/share/fonts", "/System/Library/Fonts", "C:\\Windows\\Fonts"]

/-- Font resolution (lines 98-133): an explicit `font_path` is used when
it exists (absolute, or joined to the script directory); otherwise the
default font file is searched for. -/
def locateFont (fs : List String) (scriptDir : String)
    (font_path : Option String) (fname : String) : Option String :=
  let viaExplicit : Option String :=
    match font_path with
    | none => none
    | some fp =>
      if isAbsPath fp && fp ∈ fs then some fp
      else if joinPath scriptDir fp ∈ fs then some (joinPath scriptDir fp)
      else none
  match viaExplicit with
  | some f => some f
  | none => searchFontDirs fs fname (fontSearchPaths scriptDir)

/-- The `FontNotFoundError` message (lines 137-145). -/
def fontErrMsg (fname scriptDir langTitle : String) : String :=
  "Font file '" ++ fname ++ "' not found.\n\n" ++
  "Please download Noto Sans font for " ++ langTitle ++ " from:\n" ++
  "https://fonts.google.com/noto\n\n" ++
  "Place the font file in one of these locations:\n" ++
  "  - " ++ scriptDir ++ "\n" ++
  "  - " ++ joinPath scriptDir "fonts" ++ "\n\n" ++
  "Or provide the full path using the font_path parameter."

/-- `txt_to_pdf_multilang(text_content, target_language, font_path)`
(`multilang_pdf_converter.py` lines 1-220).  The returned pair mirrors
`(pdf_bytes, error_message)` with the byte stream given by its drawn
content (serialize with `serializePdf`). -/
def txt_to_pdf_multilang (env : RenderEnv) (text_content : String)
    (target_language : String) (font_path : Option String) :
    Option (List PdfPage) × Option String :=
  if !env.reportlabAvailable then
    (none, some "Please install reportlab: pip install reportlab")
  else
    let lang := pyStrip (pyLower target_language)
    match langRegistry lang with
    | none =>
      (none, some ("Language '" ++ lang ++ "' not supported. Supported languages: " ++
        supportedNames))
    | some cfg =>
      if cfg.requiresSpecialFont then
        match locateFont env.fs env.scriptDir font_path cfg.defaultFont with
        | none => (none, some (fontErrMsg cfg.defaultFont env.scriptDir (pyTitle lang)))
        | some found =>
          match env.registerErr with
          | some e => (none, some ("Error registering font '" ++ found ++ "': " ++ e))
          | none => (some (renderDoc env.stringWidth text_content), none)
      else (some (renderDoc env.stringWidth text_content), none)

/-- A width metric under which exactly 3 single-letter words fit on one
line: each word measures 165 pt, and the available width is
`595.27... - 100 = 495.27...` pt, so 3 words (495 pt) fit and 4 words
(660 pt) do not. -/
def measureByWords : String → Int := fun t =>
  165 * ptScale * ((pySplitWsStr t).length : Int)

example :
    txt_to_pdf_multilang ⟨[], "", measureByWords, none, true⟩
      "a b c d e f g h i" "english" none =
    (some [[(leftX, topY, "a b c"),
            (leftX, topY - 16 * ptScale, "d e f"),
            (leftX, topY - 32 * ptScale, "g h i")]], none) := by decide

example :
    txt_to_pdf_multilang ⟨[], "/app", measureByWords, none, true⟩
      "x" "hindi" none =
    (none, some (fontErrMsg "NotoSansDevanagari-Regular.ttf" "/app" "Hindi")) := by
  decide

example :
    txt_to_pdf_multilang ⟨[], "/app", measureByWords, none, true⟩
      "x" "klingon" none =
    (none, some ("Language 'klingon' not supported. Supported languages: " ++
      supportedNames)) := by decide

example :
    locateFont ["/app", "/app/fonts", "/app/fonts/sub/NotoSansTamil-Regular.ttf"]
      "/app" none "NotoSansTamil-Regular.ttf" =
    some "/app/fonts/sub/NotoSansTamil-Regular.ttf" := by decide

/-! ## Helper lemmas -/

/-- A string with a non-empty left part of an append is non-empty. -/
theorem strAppend_ne_empty (s t : String) (h : s ≠ "") : s ++ t ≠ "" := by
  intro he
  apply h
  cases s with
  | mk l =>
    cases t with
    | mk m =>
      have hd := congrArg String.data he
      rw [String.data_append] at hd
      simp only [String.data] at hd
      rcases List.append_eq_nil.mp hd with ⟨h1, -⟩
      simp [h1]

/-- Under a persistently rate-limited oracle the retry loop runs all its
remaining iterations, sleeping `10 * (attempt + 1)` before every
non-first one, and ends with the rate-limit failure. -/
theorem attemptLoop_persistent429 (c mid : String) :
    ∀ r a, 1 ≤ r →
      attemptLoop (fun _ => HttpResp.status 429 c) mid r a =
        ⟨r, (List.range' a r).map (fun i => if i > 0 then 10 * (i + 1) else 0),
          ⟨none, none, some rateLimitMsg⟩⟩ := by
  have base : ∀ a, attemptLoop (fun _ => HttpResp.status 429 c) mid 1 a =
      ⟨1, [if a > 0 then 10 * (a + 1) else 0],
        ⟨none, none, some rateLimitMsg⟩⟩ := by
    intro a
    conv_lhs => rw [attemptLoop]
    simp
  have step : ∀ r a,
      attemptLoop (fun _ => HttpResp.status 429 c) mid (r + 2) a =
        ⟨(attemptLoop (fun _ => HttpResp.status 429 c) mid (r + 1) (a + 1)).attempts + 1,
          (if a > 0 then 10 * (a + 1) else 0) ::
            (attemptLoop (fun _ => HttpResp.status 429 c) mid (r + 1) (a + 1)).waits,
          (attemptLoop (fun _ => HttpResp.status 429 c) mid (r + 1) (a + 1)).result⟩ := by
    intro r a
    conv_lhs => rw [attemptLoop]
    simp
  intro r
  induction r with
  | zero => intro a h; exact absurd h (by omega)
  | succ k ih =>
    intro a _
    match k, ih with
    | 0, _ => rw [base]; simp [List.range']
    | m + 1, ih =>
      rw [step m a, ih (a + 1) (by omega)]
      simp [List.range'_succ]

/-- The transcript list built by the translation loop is the image list
mapped through `entryStr`. -/
theorem translationLoop_translations
    (tr : Nat → Option String × Option String × Option String)
    (imgs : List PageImage) :
    (translationLoop tr imgs).translations =
      imgs.map (fun img => entryStr img.pageNum (tr img.pageNum)) := by
  have cons_eq : ∀ img rest,
      (translationLoop tr (img :: rest)).translations =
        entryStr img.pageNum (tr img.pageNum) ::
          (translationLoop tr rest).translations := by
    intro img rest
    simp only [translationLoop, entryStr]
    by_cases h : pyTruthyS (tr img.pageNum).1 <;> simp [h]
  induction imgs with
  | nil => rfl
  | cons img rest ih => rw [cons_eq, ih, List.map_cons]

/-- The fold underlying Python `max(_, key=key)` returns its seed or a
list element, and its key dominates the seed's and every element's. -/
theorem pyFold_max (key : String → Nat) (l : List String) (b : String) :
    (l.foldl (fun best y => if key y > key best then y else best) b = b ∨
      l.foldl (fun best y => if key y > key best then y else best) b ∈ l) ∧
    key b ≤ key (l.foldl (fun best y => if key y > key best then y else best) b) ∧
    ∀ y ∈ l, key y ≤ key (l.foldl (fun best y => if key y > key best then y else best) b) := by
  induction l generalizing b with
  | nil => simp
  | cons x xs ih =>
    simp only [List.foldl_cons]
    obtain ⟨hmem, hle, hall⟩ := ih (if key x > key b then x else b)
    have hbb : key b ≤ key (if key x > key b then x else b) := by
      split <;> omega
    have hxb : key x ≤ key (if key x > key b then x else b) := by
      split <;> omega
    refine ⟨?_, le_trans hbb hle, ?_⟩
    · rcases hmem with h | h
      · rw [h]
        split
        · exact Or.inr (List.mem_cons_self _ _)
        · exact Or.inl rfl
      · exact Or.inr (List.mem_cons_of_mem _ h)
    · intro y hy
      rcases List.mem_cons.mp hy with rfl | hy'
      · exact le_trans hxb hle
      · exact hall y hy'

/-! ## Claim theorems -/

/-- C2: a 404 response terminates `translate_image` after exactly one
attempt with the model-not-found failure, and a persistent 429 runs
exactly `retry_count` attempts before the rate-limit failure. -/
theorem retry_terminal_classification (mid c : String) (n : Nat) (h : 1 ≤ n) :
    (translate_image (fun _ => HttpResp.status 404 c) mid n).attempts = 1 ∧
    (translate_image (fun _ => HttpResp.status 404 c) mid n).result =
      ⟨none, none, some (modelNotFoundMsg mid)⟩ ∧
    (translate_image (fun _ => HttpResp.status 429 c) mid n).attempts = n ∧
    (translate_image (fun _ => HttpResp.status 429 c) mid n).result =
      ⟨none, none, some rateLimitMsg⟩ := by
  obtain ⟨m, rfl⟩ : ∃ m, n = m + 1 := ⟨n - 1, by omega⟩
  refine ⟨?_, ?_, ?_, ?_⟩
  · simp [translate_image, attemptLoop]
  · simp [translate_image, attemptLoop]
  · rw [translate_image, attemptLoop_persistent429 c mid (m + 1) 0 h]
  · rw [translate_image, attemptLoop_persistent429 c mid (m + 1) 0 h]

/-- C2 witness: the classification at `retry_count = 3`. -/
theorem retry_terminal_classification_witness :
    (translate_image (fun _ => HttpResp.status 404 "") "m" 3).attempts = 1 ∧
    (translate_image (fun _ => HttpResp.status 404 "") "m" 3).result =
      ⟨none, none, some (modelNotFoundMsg "m")⟩ ∧
    (translate_image (fun _ => HttpResp.status 429 "") "m" 3).attempts = 3 ∧
    (translate_image (fun _ => HttpResp.status 429 "") "m" 3).result =
      ⟨none, none, some rateLimitMsg⟩ :=
  retry_terminal_classification "m" "" 3 (by decide)

/-- C4 counterexample: in a persistent-429 run with budget 3 the sleeps
before the three attempts are 0s, 20s, 30s — the wait before the second
attempt is 20s, not the 10s the claim lists. -/
theorem backoff_schedule_cex :
    (translate_image (fun _ => HttpResp.status 429 "") "m" 3).waits =
      [0, 20, 30] ∧
    (translate_image (fun _ => HttpResp.status 429 "") "m" 3).waits[1]? ≠
      some 10 := by decide

/-- C4 amended: within one page's remote translation, the wait before
the attempt with 0-based index `i ≥ 1` is `10 * (i + 1)` seconds, i.e.
20s, 30s, 40s, ... before the second, third, fourth attempts. -/
theorem backoff_schedule (n i : Nat) (h1 : 1 ≤ i) (h2 : i < n) :
    (translate_image (fun _ => HttpResp.status 429 "") "m" n).waits[i]? =
      some (10 * (i + 1)) := by
  rw [translate_image, attemptLoop_persistent429 "" "m" n 0 (by omega)]
  have hi : i > 0 := h1
  rw [← List.range_eq_range', List.getElem?_map, List.getElem?_range h2]
  simp [hi]

/-- C4 amended witness: the wait before the third attempt is 30s. -/
theorem backoff_schedule_witness :
    (translate_image (fun _ => HttpResp.status 429 "") "m" 3).waits[2]? =
      some 30 :=
  backoff_schedule 3 2 (by decide) (by decide)

/-- C3 counterexample: on the malformed marker `"[DETECTED: Hindi"` the
parse step keeps the raw reply but does NOT leave the detected language
unset — `detected_lang` is assigned `"Hindi"` before the `IndexError`
that the bare `except` swallows. -/
theorem malformed_marker_cex :
    parseDetect "[DETECTED: Hindi" = ("[DETECTED: Hindi", some "Hindi") ∧
    (parseDetect "[DETECTED: Hindi").2 ≠ none := by decide

/-- C3 amended: on a malformed detection marker the parse step does not
raise and keeps the raw reply unchanged as the translated text, but
`detected_language` is set to the stripped text following the marker
(here `"Hindi"`) rather than left unset. -/
theorem malformed_marker_parse :
    parseDetect "[DETECTED: Hindi" = ("[DETECTED: Hindi", some "Hindi") := by
  decide

/-- C8: a well-formed auto-detect reply parses to the detected language
and the marker-stripped translation, and a reply with no marker is
returned unchanged with no detected language. -/
theorem marker_parse (t : String) (h : pyContains t "[DETECTED:" = false) :
    parseDetect "[DETECTED: Hindi]\nनमस्ते" = ("नमस्ते", some "Hindi") ∧
    parseDetect t = (t, none) := by
  refine ⟨by decide, ?_⟩
  unfold parseDetect
  simp [h]

/-- C8 witness: instance at the marker-free reply `"hello"`. -/
theorem marker_parse_witness :
    parseDetect "[DETECTED: Hindi]\nनमस्ते" = ("नमस्ते", some "Hindi") ∧
    parseDetect "hello" = ("hello", none) :=
  marker_parse "hello" (by decide)

/-- C10: a 2xx response whose parsed content is the empty string makes
`translate_image` return `("", no detected language, no error)`, and the
pipeline's truthiness test then records the page as failed: its
transcript entry is the failure placeholder rendering the `None` reason,
and its page number joins the failed list. -/
theorem empty_reply_marks_failed (mid dta : String) (n : Nat) :
    (translate_image (fun _ => HttpResp.status 200 "") mid 3).result =
      ⟨some "", none, none⟩ ∧
    translationLoop (fun _ => (some "", none, none)) [⟨n, dta⟩] =
      ⟨["\n--- Page " ++ toString n ++ " ---\n[Translation failed: None]"],
        [n], []⟩ := by
  have key : ∀ x : String,
      x ++ " ---\n[Translation failed: " ++ "None" ++ "]" =
        x ++ " ---\n[Translation failed: None]" := by
    intro x
    rw [String.append_assoc, String.append_assoc]
    rfl
  refine ⟨rfl, ?_⟩
  have base : translationLoop (fun _ => (some "", none, none)) [⟨n, dta⟩] =
      ⟨["\n--- Page " ++ toString n ++ " ---\n[Translation failed: " ++
          "None" ++ "]"], [n], []⟩ := rfl
  rw [base, key ("\n--- Page " ++ toString n)]

/-- C1: for a valid inclusive range `[s, e]` the pipeline produces
exactly `e - s + 1` transcript entries, one per page whether that page's
translation succeeded or failed, tagged with the contiguous, strictly
increasing page numbers `s..e`. -/
theorem transcript_page_invariant (total s e : Nat) (render : Nat → String)
    (tr : Nat → Option String × Option String × Option String)
    (h1 : 1 ≤ s) (h2 : s ≤ e) (h3 : e ≤ total) :
    ∃ imgs, pdf_to_images total render s e = some imgs ∧
      (translationLoop tr imgs).translations.length = e - s + 1 ∧
      (translationLoop tr imgs).translations =
        (List.range (e - s + 1)).map (fun i => entryStr (s + i) (tr (s + i))) := by
  refine ⟨(List.range' (s - 1) (e - (s - 1))).map
    (fun p => ⟨p + 1, render (p + 1)⟩), ?_, ?_, ?_⟩
  · unfold pdf_to_images
    rw [if_pos ⟨h3, h1⟩]
  · rw [translationLoop_translations]
    simp only [List.length_map, List.length_range']
    omega
  · rw [translationLoop_translations, List.map_map, List.range'_eq_map_range,
      List.map_map, show e - (s - 1) = e - s + 1 from by omega]
    apply List.map_congr_left
    intro i hi
    simp only [Function.comp_apply]
    rw [show s - 1 + i + 1 = s + i from by omega]

/-- C1 witness: the invariant at the range `[1, 3]` of a 3-page
document. -/
theorem transcript_page_invariant_witness :
    ∃ imgs, pdf_to_images 3 (fun _ => "") 1 3 = some imgs ∧
      (translationLoop (fun _ => (some "x", none, none)) imgs).translations.length =
        3 - 1 + 1 ∧
      (translationLoop (fun _ => (some "x", none, none)) imgs).translations =
        (List.range (3 - 1 + 1)).map
          (fun i => entryStr (1 + i) (some "x", none, none)) :=
  transcript_page_invariant 3 1 3 (fun _ => "")
    (fun _ => (some "x", none, none)) (by decide) (by decide) (by decide)

/-- C5: under a width metric and page width where exactly three words
fit per drawn line (`measureByWords`), a single nine-word source line is
wrapped by the greedy flush-on-overflow rule into exactly three drawn
lines of three words each. -/
theorem wrap_nine_words_three_lines :
    txt_to_pdf_multilang ⟨[], "", measureByWords, none, true⟩
      "a b c d e f g h i" "english" none =
    (some [[(leftX, topY, "a b c"),
            (leftX, topY - 16 * ptScale, "d e f"),
            (leftX, topY - 32 * ptScale, "g h i")]], none) := by decide

/-- A fully built font-not-found message is never the empty string. -/
theorem fontErrMsg_ne_empty (f sd t : String) : fontErrMsg f sd t ≠ "" := by
  unfold fontErrMsg
  repeat apply strAppend_ne_empty
  decide

/-- C6: when the target language requires an embedded font and neither
the explicit font path nor any search location yields the font file,
rendering returns no bytes together with an error message that names the
expected font filename, the script directory, and the `fonts`
subdirectory that were searched. -/
theorem font_not_found_error (env : RenderEnv) (text tl : String)
    (fp : Option String) (cfg : LangConfig)
    (hA : env.reportlabAvailable = true)
    (hcfg : langRegistry (pyStrip (pyLower tl)) = some cfg)
    (hreq : cfg.requiresSpecialFont = true)
    (hloc : locateFont env.fs env.scriptDir fp cfg.defaultFont = none) :
    (txt_to_pdf_multilang env text tl fp).1 = none ∧
    (txt_to_pdf_multilang env text tl fp).2 =
      some (fontErrMsg cfg.defaultFont env.scriptDir (pyTitle (pyStrip (pyLower tl)))) ∧
    (∃ a b, fontErrMsg cfg.defaultFont env.scriptDir (pyTitle (pyStrip (pyLower tl))) =
        a ++ cfg.defaultFont ++ b) ∧
    (∃ a b, fontErrMsg cfg.defaultFont env.scriptDir (pyTitle (pyStrip (pyLower tl))) =
        a ++ env.scriptDir ++ b) ∧
    (∃ a b, fontErrMsg cfg.defaultFont env.scriptDir (pyTitle (pyStrip (pyLower tl))) =
        a ++ joinPath env.scriptDir "fonts" ++ b) := by
  have hmain : txt_to_pdf_multilang env text tl fp =
      (none, some (fontErrMsg cfg.defaultFont env.scriptDir
        (pyTitle (pyStrip (pyLower tl))))) := by
    unfold txt_to_pdf_multilang
    simp [hA, hcfg, hreq, hloc]
  refine ⟨by rw [hmain], by rw [hmain], ?_, ?_, ?_⟩
  · exact ⟨"Font file '",
      "' not found.\n\n" ++ "Please download Noto Sans font for " ++
        pyTitle (pyStrip (pyLower tl)) ++ " from:\n" ++
        "https://fonts.google.com/noto\n\n" ++
        "Place the font file in one of these locations:\n" ++
        "  - " ++ env.scriptDir ++ "\n" ++
        "  - " ++ joinPath env.scriptDir "fonts" ++ "\n\n" ++
        "Or provide the full path using the font_path parameter.",
      by simp [fontErrMsg, String.append_assoc]⟩
  · exact ⟨"Font file '" ++ cfg.defaultFont ++ "' not found.\n\n" ++
        "Please download Noto Sans font for " ++
        pyTitle (pyStrip (pyLower tl)) ++ " from:\n" ++
        "https://fonts.google.com/noto\n\n" ++
        "Place the font file in one of these locations:\n" ++ "  - ",
      "\n" ++ "  - " ++ joinPath env.scriptDir "fonts" ++ "\n\n" ++
        "Or provide the full path using the font_path parameter.",
      by simp [fontErrMsg, String.append_assoc]⟩
  · exact ⟨"Font file '" ++ cfg.defaultFont ++ "' not found.\n\n" ++
        "Please download Noto Sans font for " ++
        pyTitle (pyStrip (pyLower tl)) ++ " from:\n" ++
        "https://fonts.google.com/noto\n\n" ++
        "Place the font file in one of these locations:\n" ++
        "  - " ++ env.scriptDir ++ "\n" ++ "  - ",
      "\n\n" ++ "Or provide the full path using the font_path parameter.",
      by simp [fontErrMsg, String.append_assoc]⟩

/-- C6 witness: hindi on an empty filesystem. -/
theorem font_not_found_error_witness :
    (txt_to_pdf_multilang ⟨[], "/app", fun _ => 0, none, true⟩ "x" "hindi" none).1 =
      none ∧
    (txt_to_pdf_multilang ⟨[], "/app", fun _ => 0, none, true⟩ "x" "hindi" none).2 =
      some (fontErrMsg "NotoSansDevanagari-Regular.ttf" "/app"
        (pyTitle (pyStrip (pyLower "hindi")))) ∧
    (∃ a b, fontErrMsg "NotoSansDevanagari-Regular.ttf" "/app"
        (pyTitle (pyStrip (pyLower "hindi"))) =
      a ++ "NotoSansDevanagari-Regular.ttf" ++ b) ∧
    (∃ a b, fontErrMsg "NotoSansDevanagari-Regular.ttf" "/app"
        (pyTitle (pyStrip (pyLower "hindi"))) = a ++ "/app" ++ b) ∧
    (∃ a b, fontErrMsg "NotoSansDevanagari-Regular.ttf" "/app"
        (pyTitle (pyStrip (pyLower "hindi"))) =
      a ++ joinPath "/app" "fonts" ++ b) :=
  font_not_found_error ⟨[], "/app", fun _ => 0, none, true⟩ "x" "hindi" none
    ⟨"NotoSansDevanagari-Regular.ttf", "Devanagari", true⟩
    (by decide) (by decide) (by decide) (by decide)

/-- C7 counterexample: with the valid set-iteration order
`["Tamil", "Hindi"]` of `set(["Hindi", "Tamil"])`, the code's
`max(set(...), key=count)` returns `"Tamil"`, not the first-seen
`"Hindi"` among the tied languages. -/
theorem detected_tiebreak_cex :
    validSetEnum ["Tamil", "Hindi"] ["Hindi", "Tamil"] ∧
    detectedSummary ["Tamil", "Hindi"] ["Hindi", "Tamil"] = some "Tamil" ∧
    firstSeenPlurality ["Hindi", "Tamil"] = some "Hindi" ∧
    detectedSummary ["Tamil", "Hindi"] ["Hindi", "Tamil"] ≠
      firstSeenPlurality ["Hindi", "Tamil"] := by decide

/-- C7 amended: over any valid set-iteration order, the summary detected
language is one of the detected languages and attains the maximal
occurrence count; which of several tied languages is returned depends on
the set's unspecified iteration order, not on first-seen order. -/
theorem detected_plurality (order xs : List String)
    (h : validSetEnum order xs) (hne : xs ≠ []) :
    ∃ l, detectedSummary order xs = some l ∧ l ∈ xs ∧
      ∀ y ∈ xs, xs.count y ≤ xs.count l := by
  obtain ⟨-, hsub1, hsub2⟩ := h
  obtain ⟨a, ha⟩ := List.exists_mem_of_ne_nil xs hne
  have hao : a ∈ order := hsub2 ha
  cases horder : order with
  | nil => rw [horder] at hao; cases hao
  | cons o os =>
    rw [horder] at hsub1 hsub2
    have hxe : xs.isEmpty = false := by
      cases xs with
      | nil => exact absurd rfl hne
      | cons z zs => rfl
    obtain ⟨hmem, hle, hall⟩ := pyFold_max (fun l => xs.count l) os o
    refine ⟨os.foldl (fun best y =>
        if xs.count y > xs.count best then y else best) o,
      ?_, ?_, ?_⟩
    · simp [detectedSummary, hxe, pyMaxBy]
    · rcases hmem with hh | hh
      · rw [hh]; exact hsub1 (List.mem_cons_self o os)
      · exact hsub1 (List.mem_cons_of_mem _ hh)
    · intro y hy
      rcases List.mem_cons.mp (hsub2 hy) with rfl | hy'
      · exact hle
      · exact hall y hy'

/-- C7 amended witness: a run whose detected languages are
`["Hindi", "Hindi"]` under the only valid set order `["Hindi"]`. -/
theorem detected_plurality_witness :
    ∃ l, detectedSummary ["Hindi"] ["Hindi", "Hindi"] = some l ∧
      l ∈ ["Hindi", "Hindi"] ∧
      ∀ y ∈ ["Hindi", "Hindi"],
        List.count y ["Hindi", "Hindi"] ≤ List.count l ["Hindi", "Hindi"] :=
  detected_plurality ["Hindi"] ["Hindi", "Hindi"] (by decide) (by decide)

/-- C9: on every input the renderer returns a pair with exactly one
component set: serialized non-empty PDF bytes with no error, or no bytes
with a non-empty error message; no exception escapes. -/
theorem render_returns_exclusive_pair (env : RenderEnv) (text tl : String)
    (fp : Option String) :
    (∃ pages, txt_to_pdf_multilang env text tl fp = (some pages, none) ∧
        serializePdf pages ≠ "") ∨
    (∃ msg, txt_to_pdf_multilang env text tl fp = (none, some msg) ∧
        msg ≠ "") := by
  have hser : ∀ pages, serializePdf pages ≠ "" := fun pages =>
    strAppend_ne_empty _ _ (by decide)
  unfold txt_to_pdf_multilang
  cases hA : env.reportlabAvailable with
  | false =>
    right
    exact ⟨"Please install reportlab: pip install reportlab", by simp, by decide⟩
  | true =>
    simp only [Bool.not_true, Bool.false_eq_true, if_false]
    cases hreg : langRegistry (pyStrip (pyLower tl)) with
    | none =>
      right
      refine ⟨"Language '" ++ pyStrip (pyLower tl) ++
        "' not supported. Supported languages: " ++ supportedNames,
        by simp [hreg], ?_⟩
      exact strAppend_ne_empty _ _ (strAppend_ne_empty _ _
        (strAppend_ne_empty _ _ (by decide)))
    | some cfg =>
      cases hreq : cfg.requiresSpecialFont with
      | false =>
        left
        exact ⟨renderDoc env.stringWidth text, by simp [hreg, hreq], hser _⟩
      | true =>
        cases hloc : locateFont env.fs env.scriptDir fp cfg.defaultFont with
        | none =>
          right
          exact ⟨fontErrMsg cfg.defaultFont env.scriptDir
              (pyTitle (pyStrip (pyLower tl))),
            by simp [hreg, hreq, hloc], fontErrMsg_ne_empty _ _ _⟩
        | some found =>
          cases hre : env.registerErr with
          | some e2 =>
            right
            refine ⟨"Error registering font '" ++ found ++ "': " ++ e2,
              by simp [hreg, hreq, hloc, hre], ?_⟩
            exact strAppend_ne_empty _ _ (strAppend_ne_empty _ _
              (strAppend_ne_empty _ _ (by decide)))
          | none =>
            left
            exact ⟨renderDoc env.stringWidth text,
              by simp [hreg, hreq, hloc, hre], hser _⟩

example : pySplit "a\n\nb" "\n" = ["a", "", "b"] := by decide
example : pySplitWsStr "  a bb  c " = ["a", "bb", "c"] := by decide
example : pyStrip "\n x y \n" = "x y" := by decide
example : pyTitle "hindi" = "Hindi" := by decide
example : parseDetect "[DETECTED: Hindi]\nnamaste" = ("namaste", some "Hindi") := by decide
example : parseDetect "[DETECTED: Hindi" = ("[DETECTED: Hindi", some "Hindi") := by decide
example : parseDetect "hello" = ("hello", none) := by decide

end SmartPdf
